import Mathlib

/-
  Verification of the screening and trade-plan engine of Stock_Screener.py
  (repository mayo_screener).  The pipeline is shallowly embedded: every
  definition below mirrors a specific region of the source file, with
  Python floats modelled as rationals and DataFrame columns as record
  fields.  Line numbers in the comments refer to src/Stock_Screener.py.
-/

namespace MayoScreener

/-- One entry of the Polygon snapshot, the columns of tickers_df that lines
47 to 57 read: lastTrade.p, day.v and todaysChangePerc. -/
structure SnapshotTicker where
  ticker : String
  lastTradeP : ℚ
  dayV : ℚ
  todaysChangePerc : ℚ
deriving DecidableEq, Repr

/-- Line 50: tickers_df dollar_volume = lastTrade.p * day.v. -/
def dollar_volume (t : SnapshotTicker) : ℚ :=
  t.lastTradeP * t.dayV

/-- Lines 52 to 57: the boolean mask of the pre_filtered selection.
Price bounds use >= and <=, the volume and dollar-volume thresholds use
strict >, and the percent-change bound uses >=. -/
def pre_filter_pass (t : SnapshotTicker) : Bool :=
  decide (t.lastTradeP ≥ 45) &&
  decide (t.lastTradeP ≤ 70) &&
  decide (t.dayV > 2000000) &&
  decide (dollar_volume t > 100000000) &&
  decide (t.todaysChangePerc ≥ 2)

/-- Lines 60 to 62: sort_values by todaysChangePerc and day.v, both
descending.  a comes no later than b exactly when a is at least as large
on the (todaysChangePerc, day.v) lexicographic key. -/
def snapshotSortLE (a b : SnapshotTicker) : Bool :=
  decide (b.todaysChangePerc < a.todaysChangePerc) ||
  (decide (b.todaysChangePerc = a.todaysChangePerc) && decide (b.dayV ≤ a.dayV))

/-- Lines 52 to 62: filter the snapshot, sort descending, keep the top
150 rows. -/
def pre_filtered (ts : List SnapshotTicker) : List SnapshotTicker :=
  ((ts.filter pre_filter_pass).mergeSort snapshotSortLE).take 150

/-- The last row of the candles DataFrame after the indicator columns of
lines 106 to 132 are attached: candles.iloc[-1] as read on lines 138 to
164. -/
structure LatestBar where
  close : ℚ
  macd_hist : ℚ
  rsi_2 : ℚ
  rsi_5 : ℚ
  ema_9 : ℚ
  ema_21 : ℚ
  atr : ℚ
  vwap : ℚ
  bb_width : ℚ
deriving DecidableEq, Repr

/-- The per-ticker facts the loop body of lines 75 to 135 inspects before
building a result row: candle count, presence of the c/v/h/l columns,
NaN count and distinct-value count of the close column, summed volume,
availability of the Bollinger-band columns, and the last bar. -/
structure CandleData where
  numCandles : ℕ
  hasRequiredColumns : Bool
  closeNaNCount : ℕ
  closeNUnique : ℕ
  volumeSum : ℤ
  bbandsOk : Bool
  latest : LatestBar
deriving DecidableEq, Repr

/-- One element of result_rows, the dict appended on lines 148 to 165. -/
structure ResultRow where
  ticker : String
  price : ℚ
  volume : ℤ
  percent_change : ℚ
  macd_hist : ℚ
  rsi_2 : ℚ
  rsi_5 : ℚ
  ema_9 : ℚ
  ema_21 : ℚ
  atr : ℚ
  vwap : ℚ
  bb_width : ℚ
  ema_crossover : ℤ
  entry_price : ℚ
  target_price : ℚ
  stop_loss : ℚ
deriving DecidableEq, Repr

/-- Lines 141 to 165: entry_price is the last close, target_price is
entry_price + atr * 1.5, stop_loss is entry_price - atr * 1.0, and the
row records the indicator snapshot together with these trade levels. -/
def buildResultRow (symbol : String) (latest : LatestBar) (volumeSum : ℤ)
    (percent : ℚ) : ResultRow :=
  let entry_price := latest.close
  let atr := latest.atr
  let target_price := entry_price + atr * 1.5
  let stop_loss := entry_price - atr * 1.0
  { ticker := symbol
    price := latest.close
    volume := volumeSum
    percent_change := percent
    macd_hist := latest.macd_hist
    rsi_2 := latest.rsi_2
    rsi_5 := latest.rsi_5
    ema_9 := latest.ema_9
    ema_21 := latest.ema_21
    atr := latest.atr
    vwap := latest.vwap
    bb_width := latest.bb_width
    ema_crossover := if latest.ema_9 > latest.ema_21 then 1 else 0
    entry_price := entry_price
    target_price := target_price
    stop_loss := stop_loss }

/-- Lines 139 to 140: look up todaysChangePerc of symbol in the
pre_filtered frame, defaulting to 0 when the symbol is absent. -/
def percentLookup (pf : List SnapshotTicker) (symbol : String) : ℚ :=
  match pf.find? (fun t => t.ticker == symbol) with
  | some t => t.todaysChangePerc
  | none => 0

/-- The guards of the loop body, lines 81 to 135, in source order: skip
when the candle frame is empty or lacks a required column (line 83), has
fewer than 50 rows (line 85), is empty (line 88), has fewer than 20 rows
(line 102), has NaN or flat closes (line 115), has summed volume below
2,000,000 (line 120), or lacks Bollinger bands (line 131); otherwise
append the row built on lines 141 to 165. -/
def tickerStep (cd : CandleData) (percent : ℚ) (symbol : String) :
    Option ResultRow :=
  if cd.numCandles = 0 ∨ cd.hasRequiredColumns = false then none
  else if cd.numCandles < 50 then none
  else if cd.numCandles = 0 then none
  else if cd.numCandles < 20 then none
  else if 0 < cd.closeNaNCount ∨ cd.closeNUnique = 1 then none
  else if cd.volumeSum < 2000000 then none
  else if cd.bbandsOk = false then none
  else some (buildResultRow symbol cd.latest cd.volumeSum percent)

/-- Lines 75 to 165: the for-loop over pre_filtered tickers.  fetch maps a
symbol to the candle data its aggregates request produced. -/
def result_rows (fetch : String → CandleData) (ts : List SnapshotTicker) :
    List ResultRow :=
  (pre_filtered ts).filterMap fun t =>
    tickerStep (fetch t.ticker) (percentLookup (pre_filtered ts) t.ticker) t.ticker

/-- Line 193: the mean of the bb_width column of the result frame. -/
def bb_width_mean (rows : List ResultRow) : ℚ :=
  (rows.map (fun r => r.bb_width)).sum / (rows.length : ℚ)

/-- Line 200: liquidity_score = price * volume / 1,000,000. -/
def liquidity_score (r : ResultRow) : ℚ :=
  r.price * (r.volume : ℚ) / 1000000

/-- Lines 188 to 201: the score column, the sum of eight boolean checks
each cast to an integer.  The bb_width check compares against the mean
over the whole frame, so the score of a row depends on the cohort. -/
def score (rows : List ResultRow) (r : ResultRow) : ℤ :=
  (if r.macd_hist > 0 then 1 else 0)
  + (if r.rsi_2 < 10 then 1 else 0)
  + (if r.ema_9 > r.ema_21 then 1 else 0)
  + (if r.atr ≥ 3 ∧ r.atr ≤ 6 then 1 else 0)
  + (if r.bb_width > bb_width_mean rows then 1 else 0)
  + (if r.vwap > r.ema_21 then 1 else 0)
  + (if r.percent_change > 3 then 1 else 0)
  + (if liquidity_score r > 100 then 1 else 0)

/-- The frame with its score column: each row of df paired with the value
the lines 188 to 201 assignments give it. -/
def withScores (rows : List ResultRow) : List (ResultRow × ℤ) :=
  rows.map fun r => (r, score rows r)

/-- The three-part sort key of line 211: score, percent_change, volume. -/
def keyOf (a : ResultRow × ℤ) : ℤ × ℚ × ℤ :=
  (a.2, a.1.percent_change, a.1.volume)

/-- Descending lexicographic comparison on the line 211 key: x comes no
later than y when x is at least as large as y. -/
def lexGE (x y : ℤ × ℚ × ℤ) : Bool :=
  decide (y.1 < x.1) ||
  (decide (y.1 = x.1) &&
    (decide (y.2.1 < x.2.1) ||
      (decide (y.2.1 = x.2.1) && decide (y.2.2 ≤ x.2.2))))

/-- The comparison line 211 sorts by: sort_values with all three keys
descending. -/
def rankLE (a b : ResultRow × ℤ) : Bool :=
  lexGE (keyOf a) (keyOf b)

/-- Lines 206 to 211: top_display is a copy of the scored frame sorted by
score, percent_change and volume, all descending.  Pandas sorts on
several columns with a stable lexicographic sort, modelled by mergeSort. -/
def top_display (rows : List ResultRow) : List (ResultRow × ℤ) :=
  (withScores rows).mergeSort rankLE

/-- The local names the button block binds at some point before line 175
is reached: lines 43 to 173, including the loop-local names of lines 75
to 165.  df_final_display is not among them. -/
def boundNamesBeforeLine175 : List String :=
  ["result_rows", "snapshot_url", "snap", "tickers_df", "pre_filtered",
   "end_time", "start_time", "from_date", "to_date", "symbol", "url", "r",
   "data", "candles", "bbands", "latest", "percent", "entry_price", "atr",
   "target_price", "stop_loss", "df"]

/-- How a run of the button block can end: the line 172 to 173 warning
plus stop when the frame is empty, an unhandled NameError at the read of
an unbound name, or the display of lines 206 to 222. -/
inductive RunOutcome where
  | noValidTickers : RunOutcome
  | nameError : String → RunOutcome
  | display : List (ResultRow × ℤ) → RunOutcome
deriving DecidableEq

/-- Lines 167 to 222: build df from result_rows; if empty, warn and stop
(line 171 to 173); otherwise line 175 reads df_final_display, which
raises NameError unless that name is bound, and only then would the
format, score, sort and display steps run. -/
def screenerRun (rows : List ResultRow) : RunOutcome :=
  if rows.isEmpty then RunOutcome.noValidTickers
  else if "df_final_display" ∈ boundNamesBeforeLine175 then
    RunOutcome.display (top_display rows)
  else RunOutcome.nameError "df_final_display"

/-- The whole button block, lines 42 to 222: snapshot filter, per-ticker
loop, then the frame stage. -/
def runScreener (ts : List SnapshotTicker) (fetch : String → CandleData) :
    RunOutcome :=
  screenerRun (result_rows fetch ts)

/-! Concrete data used to evaluate the definitions. -/

/-- A last bar with close 60 and atr 2, matching the price and ATR of the
Scenario B instance of the spec. -/
def exLatest : LatestBar :=
  { close := 60, macd_hist := 1, rsi_2 := 5, rsi_5 := 50, ema_9 := 10,
    ema_21 := 9, atr := 2, vwap := 10, bb_width := 4 }

/-- A snapshot row whose day volume equals the 2,000,000 threshold
exactly, with every other attribute strictly inside its band. -/
def exBoundaryVolume : SnapshotTicker :=
  { ticker := "VOL", lastTradeP := 50, dayV := 2000000, todaysChangePerc := 5 }

/-! Theorems for the claims. -/

/-- C2 as stated is false on the code: with entry price 60 and atr 2 the
code computes stop_loss 58, not 57, because line 144 multiplies atr by
1.0 while line 143 multiplies it by 1.5, so the two sides do not use the
same multiplier and target minus entry differs from entry minus stop. -/
theorem c2_counterexample :
    (buildResultRow "AAA" exLatest 3000000 5).entry_price = 60 ∧
    (buildResultRow "AAA" exLatest 3000000 5).atr = 2 ∧
    (buildResultRow "AAA" exLatest 3000000 5).target_price = 63 ∧
    (buildResultRow "AAA" exLatest 3000000 5).stop_loss = 58 ∧
    ¬ (buildResultRow "AAA" exLatest 3000000 5).stop_loss = 57 ∧
    ¬ ((buildResultRow "AAA" exLatest 3000000 5).target_price -
        (buildResultRow "AAA" exLatest 3000000 5).entry_price =
       (buildResultRow "AAA" exLatest 3000000 5).entry_price -
        (buildResultRow "AAA" exLatest 3000000 5).stop_loss) := by
  refine ⟨rfl, rfl, ?_, ?_, ?_, ?_⟩ <;>
    norm_num [buildResultRow, exLatest]

/-- C2 amended: the trade plan uses two distinct hard-coded multipliers,
target = entry + atr * 1.5 and stop = entry - atr * 1.0; whenever atr is
nonzero the reward distance differs from the risk distance, and with
entry 60 and atr 2 the plan yields stop_loss 58 and target 63. -/
theorem c2_amended (symbol : String) (latest : LatestBar) (volumeSum : ℤ)
    (percent : ℚ) :
    (buildResultRow symbol latest volumeSum percent).stop_loss
        = latest.close - latest.atr * 1.0 ∧
    (buildResultRow symbol latest volumeSum percent).target_price
        = latest.close + latest.atr * 1.5 ∧
    (latest.atr ≠ 0 →
      (buildResultRow symbol latest volumeSum percent).target_price -
        (buildResultRow symbol latest volumeSum percent).entry_price ≠
      (buildResultRow symbol latest volumeSum percent).entry_price -
        (buildResultRow symbol latest volumeSum percent).stop_loss) := by
  refine ⟨rfl, rfl, fun h hc => h ?_⟩
  have hc2 : latest.atr * 1.5 = latest.atr * 1.0 := by
    simpa [buildResultRow] using hc
  nlinarith [hc2]

/-- Witness for c2_amended at the concrete bar with close 60 and atr 2. -/
theorem c2_witness :
    (buildResultRow "AAA" exLatest 3000000 5).target_price -
      (buildResultRow "AAA" exLatest 3000000 5).entry_price ≠
    (buildResultRow "AAA" exLatest 3000000 5).entry_price -
      (buildResultRow "AAA" exLatest 3000000 5).stop_loss :=
  (c2_amended "AAA" exLatest 3000000 5).2.2 (by norm_num [exLatest])

/-- C4 as stated is false on the code: a ticker whose day volume equals
the 2,000,000 minimum exactly is rejected, because line 55 compares with
strict >, so not every threshold comparison of the filter is
inclusive. -/
theorem c4_counterexample :
    exBoundaryVolume.dayV = 2000000 ∧
    45 ≤ exBoundaryVolume.lastTradeP ∧ exBoundaryVolume.lastTradeP ≤ 70 ∧
    2 ≤ exBoundaryVolume.todaysChangePerc ∧
    pre_filter_pass exBoundaryVolume = false := by
  refine ⟨rfl, ?_, ?_, ?_, ?_⟩ <;>
    norm_num [pre_filter_pass, dollar_volume, exBoundaryVolume]

/-- C4 amended: the price bounds (45 and 70) and the percent-change bound
(2.0) are inclusive, so a ticker sitting exactly on those bounds passes
them, but the volume threshold (2,000,000) and the dollar-volume
threshold (100,000,000) are strict. -/
theorem c4_amended :
    (∀ t : SnapshotTicker, pre_filter_pass t = true ↔
      (45 ≤ t.lastTradeP ∧ t.lastTradeP ≤ 70 ∧ 2000000 < t.dayV ∧
       100000000 < dollar_volume t ∧ 2 ≤ t.todaysChangePerc)) ∧
    pre_filter_pass
      { ticker := "A", lastTradeP := 45, dayV := 3000000,
        todaysChangePerc := 2 } = true ∧
    pre_filter_pass
      { ticker := "B", lastTradeP := 70, dayV := 3000000,
        todaysChangePerc := 2 } = true := by
  refine ⟨fun t => ?_, ?_, ?_⟩
  · simp [pre_filter_pass, Bool.and_eq_true, decide_eq_true_eq,
      ge_iff_le, gt_iff_lt, and_assoc]
  · norm_num [pre_filter_pass, dollar_volume]
  · norm_num [pre_filter_pass, dollar_volume]

/-- C10: in every appended result row, when the atr of the last bar is
non-negative the trade levels are ordered stop_loss <= entry_price <=
target_price, with entry the last close, stop entry - atr * 1.0 and
target entry + atr * 1.5. -/
theorem c10_trade_levels_ordered (symbol : String) (latest : LatestBar)
    (volumeSum : ℤ) (percent : ℚ) (h : 0 ≤ latest.atr) :
    (buildResultRow symbol latest volumeSum percent).stop_loss ≤
      (buildResultRow symbol latest volumeSum percent).entry_price ∧
    (buildResultRow symbol latest volumeSum percent).entry_price ≤
      (buildResultRow symbol latest volumeSum percent).target_price ∧
    (buildResultRow symbol latest volumeSum percent).entry_price
        = latest.close ∧
    (buildResultRow symbol latest volumeSum percent).stop_loss
        = latest.close - latest.atr * 1.0 ∧
    (buildResultRow symbol latest volumeSum percent).target_price
        = latest.close + latest.atr * 1.5 := by
  refine ⟨?_, ?_, rfl, rfl, rfl⟩ <;>
    · simp only [buildResultRow]
      nlinarith [h]

/-- Witness for c10_trade_levels_ordered at the concrete bar with close
60 and atr 2. -/
theorem c10_witness :
    (buildResultRow "AAA" exLatest 3000000 5).stop_loss ≤
      (buildResultRow "AAA" exLatest 3000000 5).entry_price ∧
    (buildResultRow "AAA" exLatest 3000000 5).entry_price ≤
      (buildResultRow "AAA" exLatest 3000000 5).target_price ∧
    (buildResultRow "AAA" exLatest 3000000 5).entry_price = exLatest.close ∧
    (buildResultRow "AAA" exLatest 3000000 5).stop_loss
        = exLatest.close - exLatest.atr * 1.0 ∧
    (buildResultRow "AAA" exLatest 3000000 5).target_price
        = exLatest.close + exLatest.atr * 1.5 :=
  c10_trade_levels_ordered "AAA" exLatest 3000000 5 (by norm_num [exLatest])

/-- Candle data for a symbol whose aggregates request returned nothing:
the candles frame is empty and no indicator columns exist. -/
def exNoData : CandleData :=
  { numCandles := 0, hasRequiredColumns := false, closeNaNCount := 0,
    closeNUnique := 0, volumeSum := 0, bbandsOk := false, latest := exLatest }

/-- A result row that satisfies all eight score checks when its cohort
mean bb_width is below 4. -/
def exRowA : ResultRow :=
  { ticker := "A", price := 50, volume := 3000000, percent_change := 5,
    macd_hist := 1, rsi_2 := 5, rsi_5 := 50, ema_9 := 10, ema_21 := 9,
    atr := 4, vwap := 10, bb_width := 4, ema_crossover := 1,
    entry_price := 50, target_price := 56, stop_loss := 46 }

/-- A second row, identical except for the ticker and a lower bb_width,
pulling the cohort mean below the bb_width of exRowA. -/
def exRowB : ResultRow :=
  { exRowA with ticker := "B", bb_width := 2 }

/-- The two-row cohort built from exRowA and exRowB. -/
def exCohort : List ResultRow := [exRowA, exRowB]

/-- C1: whenever at least one result row exists, the frame built on line
168 is non-empty, execution passes the line 171 guard, and line 175 reads
df_final_display, a name bound nowhere earlier in the block, so the run
ends in an unhandled NameError and never reaches the display outcome. -/
theorem c1_name_error_on_nonempty (rows : List ResultRow) (h : rows ≠ []) :
    "df_final_display" ∉ boundNamesBeforeLine175 ∧
    screenerRun rows = RunOutcome.nameError "df_final_display" ∧
    ∀ top, screenerRun rows ≠ RunOutcome.display top := by
  have hb : "df_final_display" ∉ boundNamesBeforeLine175 := by decide
  have he : rows.isEmpty = false := by
    simpa [List.isEmpty_iff] using h
  refine ⟨hb, ?_, fun top => ?_⟩ <;> simp [screenerRun, he, hb]

/-- Witness for c1_name_error_on_nonempty on a one-row result list. -/
theorem c1_witness :
    screenerRun [buildResultRow "AAA" exLatest 3000000 5] =
      RunOutcome.nameError "df_final_display" :=
  (c1_name_error_on_nonempty [buildResultRow "AAA" exLatest 3000000 5]
    (by simp)).2.1

/-- C3 as stated is false on the code: the score is a sum of eight
checks each weighted 1, so a row that satisfies every enabled check, such
as exRowA in exCohort, scores exactly 8; the weights of the enabled
checks sum to 8, not 10. -/
theorem c3_counterexample :
    exRowA.macd_hist > 0 ∧ exRowA.rsi_2 < 10 ∧
    exRowA.ema_9 > exRowA.ema_21 ∧
    (exRowA.atr ≥ 3 ∧ exRowA.atr ≤ 6) ∧
    exRowA.bb_width > bb_width_mean exCohort ∧
    exRowA.vwap > exRowA.ema_21 ∧ exRowA.percent_change > 3 ∧
    liquidity_score exRowA > 100 ∧
    score exCohort exRowA = 8 ∧ ¬ score exCohort exRowA = 10 := by
  norm_num [score, bb_width_mean, liquidity_score, exRowA, exRowB, exCohort]

/-- Each summand of the score is 0 or 1. -/
theorem score_term_bounds (c : Prop) [Decidable c] :
    0 ≤ (if c then (1 : ℤ) else 0) ∧ (if c then (1 : ℤ) else 0) ≤ 1 := by
  split <;> norm_num

/-- C3 amended: the composite score is a sum of eight independently
weighted boolean sub-checks, each contributing its full weight 1 or 0
with no partial credit; it lies in [0, 8], and the total weight 8 is
attained, so the enabled weights sum to 8 rather than 10. -/
theorem c3_amended :
    (∀ (rows : List ResultRow) (r : ResultRow),
      0 ≤ score rows r ∧ score rows r ≤ 8) ∧
    score exCohort exRowA = 8 := by
  constructor
  · intro rows r
    unfold score
    obtain ⟨a1, b1⟩ := score_term_bounds (r.macd_hist > 0)
    obtain ⟨a2, b2⟩ := score_term_bounds (r.rsi_2 < 10)
    obtain ⟨a3, b3⟩ := score_term_bounds (r.ema_9 > r.ema_21)
    obtain ⟨a4, b4⟩ := score_term_bounds (r.atr ≥ 3 ∧ r.atr ≤ 6)
    obtain ⟨a5, b5⟩ := score_term_bounds (r.bb_width > bb_width_mean rows)
    obtain ⟨a6, b6⟩ := score_term_bounds (r.vwap > r.ema_21)
    obtain ⟨a7, b7⟩ := score_term_bounds (r.percent_change > 3)
    obtain ⟨a8, b8⟩ := score_term_bounds (liquidity_score r > 100)
    omega
  · norm_num [score, bb_width_mean, liquidity_score, exRowA, exRowB, exCohort]

/-- C8: when every ticker of the universe fails the pre-filter, and in
particular when the universe is empty, the loop appends no rows, the
line 171 guard fires, and the run ends in the noValidTickers state, a
constructor distinct from both the NameError outcome and the display
outcome. -/
theorem c8_empty_distinct_state (ts : List SnapshotTicker)
    (fetch : String → CandleData)
    (h : ∀ t ∈ ts, pre_filter_pass t = false) :
    result_rows fetch ts = [] ∧
    runScreener ts fetch = RunOutcome.noValidTickers ∧
    (∀ s, RunOutcome.noValidTickers ≠ RunOutcome.nameError s) ∧
    (∀ tops, RunOutcome.noValidTickers ≠ RunOutcome.display tops) := by
  have hf : ts.filter pre_filter_pass = [] := by
    rw [List.filter_eq_nil_iff]
    intro t ht
    simp [h t ht]
  have hpf : pre_filtered ts = [] := by
    simp [pre_filtered, hf]
  have hrr : result_rows fetch ts = [] := by
    simp [result_rows, hpf]
  refine ⟨hrr, ?_, ?_, ?_⟩
  · simp [runScreener, hrr, screenerRun]
  · intro s hs; cases hs
  · intro tops htops; cases htops

/-- Witness for c8_empty_distinct_state on the empty ticker universe. -/
theorem c8_witness :
    runScreener [] (fun _ => exNoData) = RunOutcome.noValidTickers :=
  (c8_empty_distinct_state [] (fun _ => exNoData) (by simp)).2.1

/-- C9: the pipeline is deterministic: identical snapshot universes and
identical per-ticker candle data yield identical result rows, identical
scores, an identical ranked frame and an identical run outcome. -/
theorem c9_deterministic (ts1 ts2 : List SnapshotTicker)
    (f1 f2 : String → CandleData) (h1 : ts1 = ts2) (h2 : f1 = f2) :
    result_rows f1 ts1 = result_rows f2 ts2 ∧
    (∀ r, score (result_rows f1 ts1) r = score (result_rows f2 ts2) r) ∧
    top_display (result_rows f1 ts1) = top_display (result_rows f2 ts2) ∧
    runScreener ts1 f1 = runScreener ts2 f2 := by
  subst h1; subst h2
  exact ⟨rfl, fun _ => rfl, rfl, rfl⟩

/-- Witness for c9_deterministic on a concrete universe and fetch map. -/
theorem c9_witness :
    runScreener [exBoundaryVolume] (fun _ => exNoData) =
      runScreener [exBoundaryVolume] (fun _ => exNoData) :=
  (c9_deterministic [exBoundaryVolume] [exBoundaryVolume]
    (fun _ => exNoData) (fun _ => exNoData) rfl rfl).2.2.2

/-- A row with the same numeric attributes as exRowA and a different
ticker, so the two tie on every sort key of line 211. -/
def exRowTie : ResultRow := { exRowA with ticker := "B2" }

/-- The two-row frame in which exRowA and exRowTie tie on all keys. -/
def exTieRows : List ResultRow := [exRowA, exRowTie]

/-- The descending lexicographic comparison is total. -/
theorem lexGE_total (x y : ℤ × ℚ × ℤ) : (lexGE x y || lexGE y x) = true := by
  simp only [lexGE, Bool.or_eq_true, Bool.and_eq_true, decide_eq_true_eq]
  rcases lt_trichotomy x.1 y.1 with h1 | h1 | h1
  · exact Or.inr (Or.inl h1)
  · rcases lt_trichotomy x.2.1 y.2.1 with h2 | h2 | h2
    · exact Or.inr (Or.inr ⟨h1, Or.inl h2⟩)
    · rcases le_total x.2.2 y.2.2 with h3 | h3
      · exact Or.inr (Or.inr ⟨h1, Or.inr ⟨h2, h3⟩⟩)
      · exact Or.inl (Or.inr ⟨h1.symm, Or.inr ⟨h2.symm, h3⟩⟩)
    · exact Or.inl (Or.inr ⟨h1.symm, Or.inl h2⟩)
  · exact Or.inl (Or.inl h1)

/-- The descending lexicographic comparison is transitive. -/
theorem lexGE_trans (x y z : ℤ × ℚ × ℤ) (hxy : lexGE x y = true)
    (hyz : lexGE y z = true) : lexGE x z = true := by
  simp only [lexGE, Bool.or_eq_true, Bool.and_eq_true, decide_eq_true_eq]
    at hxy hyz ⊢
  rcases hxy with h1 | ⟨e1, hxy2⟩ <;> rcases hyz with h2 | ⟨e2, hyz2⟩
  · exact Or.inl (h2.trans h1)
  · exact Or.inl (by rw [e2]; exact h1)
  · exact Or.inl (by rw [← e1]; exact h2)
  · refine Or.inr ⟨e2.trans e1, ?_⟩
    rcases hxy2 with g1 | ⟨f1, hxy3⟩ <;> rcases hyz2 with g2 | ⟨f2, hyz3⟩
    · exact Or.inl (g2.trans g1)
    · exact Or.inl (by rw [f2]; exact g1)
    · exact Or.inl (by rw [← f1]; exact g2)
    · exact Or.inr ⟨f2.trans f1, hyz3.trans hxy3⟩

/-- The descending lexicographic comparison holds reflexively. -/
theorem lexGE_refl (x : ℤ × ℚ × ℤ) : lexGE x x = true := by
  simp [lexGE]

/-- The line 211 comparison is transitive. -/
theorem rankLE_trans (a b c : ResultRow × ℤ) (hab : rankLE a b = true)
    (hbc : rankLE b c = true) : rankLE a c = true :=
  lexGE_trans (keyOf a) (keyOf b) (keyOf c) hab hbc

/-- The line 211 comparison is total. -/
theorem rankLE_total (a b : ResultRow × ℤ) :
    (rankLE a b || rankLE b a) = true :=
  lexGE_total (keyOf a) (keyOf b)

/-- When the line 211 comparison puts a before b, the score of b is at
most the score of a. -/
theorem rankLE_score_le (a b : ResultRow × ℤ) (h : rankLE a b = true) :
    b.2 ≤ a.2 := by
  simp only [rankLE, lexGE, keyOf, Bool.or_eq_true, Bool.and_eq_true,
    decide_eq_true_eq] at h
  rcases h with h | ⟨e, _⟩
  · exact le_of_lt h
  · exact le_of_eq e

/-- Sorting the scored frame never changes its length. -/
theorem top_display_length (rows : List ResultRow) :
    (top_display rows).length = rows.length := by
  simp [top_display, List.length_mergeSort, withScores]

/-- C5 as stated is false on the code: the sort of lines 206 to 211 is
never truncated to a top N, so an input of eleven scored candidates
yields a ranked output of eleven rows, which exceeds the default cutoff
of ten. -/
theorem c5_counterexample :
    (top_display (List.replicate 11 exRowA)).length = 11 ∧
    ¬ (top_display (List.replicate 11 exRowA)).length ≤ 10 := by
  have h : (top_display (List.replicate 11 exRowA)).length = 11 := by
    rw [top_display_length, List.length_replicate]
  exact ⟨h, by rw [h]; decide⟩

/-- C5 amended: the ranker drops nothing at all: the ranked output has
exactly the length of its input frame, with no top-N truncation; the
only cardinality cap in the pipeline is the head(150) applied to the
pre-filtered snapshot on line 62. -/
theorem c5_amended :
    (∀ rows : List ResultRow, (top_display rows).length = rows.length) ∧
    (∀ ts : List SnapshotTicker, (pre_filtered ts).length ≤ 150) := by
  refine ⟨top_display_length, fun ts => ?_⟩
  unfold pre_filtered
  rw [List.length_take]
  exact Nat.min_le_left _ _

/-- C6: in the ranked frame produced by line 211, the score column is
non-increasing: at any two positions i < j of top_display, the score at
j is at most the score at i. -/
theorem c6_scores_nonincreasing (rows : List ResultRow) (i j : ℕ)
    (hij : i < j) (hj : j < (top_display rows).length) :
    ((top_display rows).get ⟨j, hj⟩).2 ≤
      ((top_display rows).get ⟨i, Nat.lt_trans hij hj⟩).2 := by
  have hp : List.Pairwise (fun a b => rankLE a b = true) (top_display rows) :=
    List.sorted_mergeSort rankLE_trans rankLE_total (withScores rows)
  exact rankLE_score_le _ _
    (List.pairwise_iff_get.mp hp ⟨i, Nat.lt_trans hij hj⟩ ⟨j, hj⟩ hij)

/-- Witness for c6_scores_nonincreasing on the two-row cohort. -/
theorem c6_witness :
    ((top_display exCohort).get
        ⟨1, by rw [top_display_length]; decide⟩).2 ≤
      ((top_display exCohort).get
        ⟨0, by rw [top_display_length]; decide⟩).2 :=
  c6_scores_nonincreasing exCohort 0 1 (by decide)
    (by rw [top_display_length]; decide)

/-- C7: the ranking is stable: two scored rows that appear in a given
order in the scored frame and agree on the whole (score, percent_change,
volume) key appear in the same order in the ranked frame. -/
theorem c7_stable_sort (rows : List ResultRow) (x y : ResultRow × ℤ)
    (hsub : [x, y].Sublist (withScores rows))
    (hkey : keyOf x = keyOf y) :
    [x, y].Sublist (top_display rows) := by
  have hrank : rankLE x y = true := by
    unfold rankLE
    rw [hkey]
    exact lexGE_refl _
  have hpw : List.Pairwise (fun a b => rankLE a b = true) [x, y] := by
    simp [hrank]
  exact List.sublist_mergeSort rankLE_trans rankLE_total hpw hsub

/-- Witness for c7_stable_sort: exRowA and exRowTie tie on every key and
keep their input order in the ranked frame. -/
theorem c7_witness :
    [(exRowA, score exTieRows exRowA),
     (exRowTie, score exTieRows exRowTie)].Sublist
      (top_display exTieRows) :=
  c7_stable_sort exTieRows (exRowA, score exTieRows exRowA)
    (exRowTie, score exTieRows exRowTie)
    (by simp only [withScores, exTieRows, List.map_cons, List.map_nil]
        exact List.Sublist.refl _)
    (by norm_num [keyOf, score, bb_width_mean, liquidity_score, exRowA,
          exRowTie, exTieRows])

end MayoScreener
